import Mathlib

/-!
Verification of the unified-record data loader
(`src/data_loader.py`, class `EthiopiaFIDataLoader`).

The data model is a single flat table multiplexing four record kinds
(observation, event, impact_link, target) distinguished by `record_type`,
with sparse kind-specific columns.  A pandas DataFrame is embedded as a
list of records whose cells are `Option`-valued (a `none` cell is pandas
NaN/NaT), together with the list of column names present in the frame
(`cols`), since several operations test column presence.

Numeric cells are embedded as rationals, dates as ISO `YYYY-MM-DD...`
strings (whose lexicographic order agrees with chronological order, so
pandas `min`/`max`/`sort_values` on a converted date column is string
`min`/`max`/sort here).  `datetime.now()` is passed in explicitly as a
`Timestamp` value.
-/

set_option maxHeartbeats 1000000

namespace EthiopiaFI

/-- One row of the unified table.  Every cell is optional: a `none` is a
missing value (pandas NaN/NaT).  Mirrors the union of all field names
written by the loader and its three typed constructors. -/
structure Record where
  record_id : Option String := none
  record_type : Option String := none
  pillar : Option String := none
  indicator : Option String := none
  indicator_code : Option String := none
  value_numeric : Option ℚ := none
  observation_date : Option String := none
  source_name : Option String := none
  source_url : Option String := none
  confidence : Option String := none
  notes : Option String := none
  collected_by : Option String := none
  collection_date : Option String := none
  event_name : Option String := none
  event_date : Option String := none
  event_category : Option String := none
  description : Option String := none
  parent_id : Option String := none
  related_indicator : Option String := none
  impact_direction : Option String := none
  impact_magnitude : Option ℚ := none
  lag_months : Option ℤ := none
  evidence_basis : Option String := none
  source_type : Option String := none
  target_date : Option String := none
  deriving Repr, DecidableEq

/-- A DataFrame: the list of column names present, and the rows. -/
structure Table where
  cols : List String
  rows : List Record
  deriving Repr, DecidableEq

/-- `pd.DataFrame()`: no columns, no rows. -/
def emptyTable : Table := { cols := [], rows := [] }

/-- The reference-codes table: a list of (field, code) pairs. -/
def RefTable : Type := List (String × String)

instance : DecidableEq RefTable := by
  unfold RefTable
  infer_instance

/-- The accepted codes for a categorical field:
`reference_codes[reference_codes.field == field].code.tolist()`. -/
def acceptedCodes (ref : RefTable) (field : String) : List String :=
  (List.filter (fun p => p.1 = field) ref).map (fun p => p.2)

/-- Helper for `firstSeen`: drop the elements already seen. -/
def firstSeenAux {α : Type} [DecidableEq α] (seen : List α) : List α → List α
  | [] => []
  | x :: xs =>
    if x ∈ seen then firstSeenAux seen xs
    else x :: firstSeenAux (x :: seen) xs

/-- First-seen-order deduplication, as `pandas.Series.unique` /
`pd.unique` produce: keep the first occurrence of each value. -/
def firstSeen {α : Type} [DecidableEq α] (l : List α) : List α :=
  firstSeenAux [] l

/-- Insert into a list sorted by the boolean relation `le` (stable). -/
def insertLe {α : Type} (le : α → α → Bool) (x : α) : List α → List α
  | [] => [x]
  | y :: ys => if le x y then x :: y :: ys else y :: insertLe le x ys

/-- Stable insertion sort by the boolean relation `le`; embeds pandas
`sort_values` (a stable ascending sort). -/
def sortLe {α : Type} (le : α → α → Bool) : List α → List α
  | [] => []
  | x :: xs => insertLe le x (sortLe le xs)

/-- Lexicographic comparison of character lists by code point. -/
def chLt : List Char → List Char → Bool
  | [], [] => false
  | [], _ :: _ => true
  | _ :: _, [] => false
  | a :: as, b :: bs =>
    if a.toNat < b.toNat then true
    else if b.toNat < a.toNat then false
    else chLt as bs

/-- Strict lexicographic order on strings by code point, as Python and
pandas compare strings (agrees with chronological order on ISO
dates). -/
def strLt (a b : String) : Bool := chLt a.data b.data

/-- Reflexive lexicographic order on strings. -/
def strLe (a b : String) : Bool := a = b || strLt a b

/-- Python `str.upper()` on the code points the loader uses: uppercase
each character. -/
def pyUpper (s : String) : String := String.mk (s.data.map Char.toUpper)

/-- Order on optional dates used by `sort_values`: missing dates (NaT)
sort last. -/
def dateLe (a b : Option String) : Bool :=
  match a, b with
  | none, none => true
  | none, some _ => false
  | some _, none => true
  | some x, some y => strLe x y

/-- Minimum of a list of date strings (pandas `min` over a converted
date column, which skips missing values). -/
def minDate : List String → Option String
  | [] => none
  | x :: xs =>
    match minDate xs with
    | none => some x
    | some m => if strLe x m then some x else some m

/-- Maximum of a list of date strings (pandas `max`, skipping missing
values). -/
def maxDate : List String → Option String
  | [] => none
  | x :: xs =>
    match maxDate xs with
    | none => some x
    | some m => if strLe m x then some x else some m

/-- Number of occurrences of `s` in `l`. -/
def countOcc (s : String) (l : List String) : Nat :=
  (l.filter (fun x => x = s)).length

/-- `Series.mode()[0]`: the most frequent value, ties broken by taking
the smallest in sort order (pandas `mode` returns values sorted
ascending); `none` when there are no (non-missing) values. -/
def modeVal (l : List String) : Option String :=
  (sortLe strLe (firstSeen l)).foldl
    (fun best x =>
      match best with
      | none => some x
      | some b => if countOcc b l < countOcc x l then some x else best)
    none

/-! ## Ingestion validation (`_validate_schema`, `_validate_categorical_fields`,
`_convert_dates`, `_load_impact_links`) -/

/-- The categorical fields checked against the reference catalog. -/
def categoricalFields : List String :=
  ["record_type", "pillar", "source_type", "confidence"]

/-- The mandatory columns checked by `_validate_schema`. -/
def requiredColumns : List String :=
  ["record_id", "record_type", "indicator", "indicator_code"]

/-- `self.data[field]` for a categorical field name. -/
def getCat (r : Record) (f : String) : Option String :=
  if f = "record_type" then r.record_type
  else if f = "pillar" then r.pillar
  else if f = "source_type" then r.source_type
  else if f = "confidence" then r.confidence
  else none

/-- The row-level flag of the categorical check:
`~data[field].isin(valid_values) & ~data[field].isna()`.
A missing cell is never flagged; a present cell is flagged exactly when
its value is outside the accepted list (note: the empty string is a
present, non-NaN value). -/
def codeFlag (valid : List String) (v : Option String) : Bool :=
  match v with
  | none => false
  | some s => decide (s ∉ valid)

/-- The offending values of a column, in row order:
the values at the flagged positions (`data.loc[invalid_mask, field]`). -/
def invalidCells (valid : List String) (cells : List (Option String)) : List String :=
  cells.filterMap (fun v =>
    match v with
    | none => none
    | some s => if s ∈ valid then none else some s)

/-- A validation finding reported (logged) by the categorical check:
the field, the number of flagged rows (`invalid_mask.sum()`), and the
reported sample (`data.loc[invalid_mask, field].unique()[:5]`). -/
structure Finding where
  field : String
  invalid_count : Nat
  sample : List String
  deriving Repr, DecidableEq

/-- The finding the categorical check produces for one field, if any:
nothing when the column is absent, when the catalog lists no code for
the field, or when no row is flagged. -/
def fieldFinding (t : Table) (ref : RefTable) (f : String) : Option Finding :=
  if f ∈ t.cols then
    let valid := acceptedCodes ref f
    if valid ≠ [] then
      let inv := invalidCells valid (t.rows.map (fun r => getCat r f))
      if inv.length ≠ 0 then
        some { field := f, invalid_count := inv.length, sample := (firstSeen inv).take 5 }
      else none
    else none
  else none

/-- All findings of `_validate_categorical_fields`; nothing when the
reference table is empty (the early `return`). -/
def validateCategoricalFields (t : Table) (ref : RefTable) : List Finding :=
  if ref = ([] : List (String × String)) then []
  else categoricalFields.filterMap (fieldFinding t ref)

/-- The `valid_codes_cache` written by `_validate_categorical_fields`:
for every categorical field whose column is present, the accepted list
(cached even when empty). -/
def validateCaches (t : Table) (ref : RefTable) : List (String × List String) :=
  if ref = ([] : List (String × String)) then []
  else categoricalFields.filterMap (fun f =>
    if f ∈ t.cols then some (f, acceptedCodes ref f) else none)

/-- A well-formed ISO calendar-date string: `YYYY-MM-DD` possibly
followed by more (a time part).  Stands in for pandas' date grammar in
`pd.to_datetime(col, errors=coerce)`: anything else becomes missing. -/
def wellFormedDate (s : String) : Bool :=
  match s.toList with
  | y1 :: y2 :: y3 :: y4 :: h1 :: m1 :: m2 :: h2 :: d1 :: d2 :: _ =>
    y1.isDigit && y2.isDigit && y3.isDigit && y4.isDigit && h1 = '-' &&
    m1.isDigit && m2.isDigit && h2 = '-' && d1.isDigit && d2.isDigit
  | _ => false

/-- `errors=coerce` date parsing of one cell: unparsable values become
missing rather than blocking the row. -/
def normDate (v : Option String) : Option String :=
  v.bind (fun s => if wellFormedDate s then some s else none)

/-- `_convert_dates`: parse each of the four date columns that is
present; unparsable values coerce to missing. -/
def convertDates (t : Table) : Table :=
  { cols := t.cols
    rows := t.rows.map (fun r =>
      { r with
        observation_date :=
          if "observation_date" ∈ t.cols then normDate r.observation_date else r.observation_date
        event_date :=
          if "event_date" ∈ t.cols then normDate r.event_date else r.event_date
        target_date :=
          if "target_date" ∈ t.cols then normDate r.target_date else r.target_date
        collection_date :=
          if "collection_date" ∈ t.cols then normDate r.collection_date else r.collection_date }) }

/-- `_load_impact_links`: the rows with a present `impact_direction`
when that column exists, else an empty frame. -/
def loadImpactLinks (t : Table) : Table :=
  if "impact_direction" ∈ t.cols then
    { cols := t.cols, rows := t.rows.filter (fun r => r.impact_direction ≠ none) }
  else emptyTable

/-- The loader's state (`self`): the main table, the reference codes,
the cache, the extracted impact links, and the reported problems
(log lines, modelled as data so they can be stated about). -/
structure Loader where
  data : Option Table := none
  reference_codes : Option RefTable := none
  valid_codes_cache : List (String × List String) := []
  impact_links : Option Table := none
  load_errors : List String := []
  missing_columns : List String := []
  findings : List Finding := []

/-- `load_all_data`, with the file system passed in explicitly: `none`
for an absent file, `some` for its parsed contents.  A missing file is
reported and replaced by an empty frame; a non-empty main table is then
validated, date-normalized, and mined for impact links. -/
def load_all_data (dataFile : Option Table) (refFile : Option RefTable) : Loader :=
  let data := dataFile.getD emptyTable
  let ref := refFile.getD ([] : List (String × String))
  let errs :=
    (match dataFile with
     | some _ => []
     | none => ["Main data file not found"]) ++
    (match refFile with
     | some _ => []
     | none => ["Reference codes file not found"])
  if data.rows = [] then
    { data := some data, reference_codes := some ref, load_errors := errs }
  else
    let data2 := convertDates data
    { data := some data2
      reference_codes := some ref
      valid_codes_cache := validateCaches data ref
      impact_links := some (loadImpactLinks data2)
      load_errors := errs
      missing_columns := requiredColumns.filter (fun c => c ∉ data.cols)
      findings := validateCategoricalFields data ref }

/-! ## Derived views -/

/-- The result of `get_record_type_stats` when the store is non-empty:
the per-`record_type` counts and the total record count. -/
structure RTStats where
  counts : List (String × Nat)
  total_records : Nat
  deriving Repr, DecidableEq

/-- `Series.value_counts().to_dict()`: one entry per distinct present
value with its number of occurrences, ordered by descending count
(missing values are not counted). -/
def valueCounts (l : List (Option String)) : List (String × Nat) :=
  let vals := l.filterMap id
  sortLe (fun a b => decide (b.2 ≤ a.2))
    ((firstSeen vals).map (fun s => (s, countOcc s vals)))

/-- `get_record_type_stats`: `none` embeds the empty dict returned for
a missing or empty store. -/
def get_record_type_stats (L : Loader) : Option RTStats :=
  match L.data with
  | none => none
  | some t =>
    if t.rows = [] then none
    else some { counts := valueCounts (t.rows.map (fun r => r.record_type))
                total_records := t.rows.length }

/-- One row of the `get_temporal_coverage` result, indexed by the
grouped `indicator_code`. -/
structure CoverageRow where
  indicator_code : String
  first_date : Option String
  last_date : Option String
  count : Nat
  sources : List (Option String)
  confidence : Option String
  deriving Repr, DecidableEq

/-- The aggregation `get_temporal_coverage` computes for one group `g`
of observation rows: earliest and latest present date, count of present
dates, the first five distinct source names, the modal confidence. -/
def coverageOf (k : String) (g : List Record) : CoverageRow :=
  let dates := g.filterMap (fun r => r.observation_date)
  { indicator_code := k
    first_date := minDate dates
    last_date := maxDate dates
    count := dates.length
    sources := (firstSeen (g.map (fun r => r.source_name))).take 5
    confidence := modeVal (g.filterMap (fun r => r.confidence)) }

/-- `get_temporal_coverage`: restrict to observation rows, group by
`indicator_code` (groupby: keys sorted ascending, missing keys
dropped), aggregate each group; empty data, no observation rows or a
missing `observation_date` column give an empty frame. -/
def get_temporal_coverage (L : Loader) : List CoverageRow :=
  match L.data with
  | none => []
  | some t =>
    if t.rows = [] then []
    else
      let observations := t.rows.filter (fun r => r.record_type = some "observation")
      if observations = [] ∨ "observation_date" ∉ t.cols then []
      else
        let keys := sortLe strLe (firstSeen (observations.filterMap (fun r => r.indicator_code)))
        keys.map (fun k =>
          coverageOf k (observations.filter (fun r => r.indicator_code = some k)))

/-- One row of the `get_events_timeline` projection. -/
structure TimelineRow where
  record_id : Option String
  event_name : Option String
  event_date : Option String
  event_category : Option String
  source_name : Option String
  confidence : Option String
  notes : Option String
  deriving Repr, DecidableEq

/-- `get_events_timeline`: event rows projected to seven columns,
sorted ascending by event date (missing dates last). -/
def get_events_timeline (L : Loader) : List TimelineRow :=
  match L.data with
  | none => []
  | some t =>
    if t.rows = [] then []
    else
      let events := t.rows.filter (fun r => r.record_type = some "event")
      if events = [] then []
      else
        (sortLe (fun a b => dateLe a.event_date b.event_date) events).map (fun r =>
          { record_id := r.record_id, event_name := r.event_name
            event_date := r.event_date, event_category := r.event_category
            source_name := r.source_name, confidence := r.confidence
            notes := r.notes })

/-- `get_observations_by_indicator`: observation rows, optionally
filtered to one `indicator_code`, sorted ascending by observation date.
The filter runs only when the argument is truthy: `None` and the empty
string both mean "no filter" (`if indicator_code:`). -/
def get_observations_by_indicator (L : Loader) (indicator_code : Option String := none) :
    List Record :=
  match L.data with
  | none => []
  | some t =>
    if t.rows = [] then []
    else
      let observations := t.rows.filter (fun r => r.record_type = some "observation")
      if observations = [] then []
      else
        let filtered :=
          match indicator_code with
          | some c =>
            if c ≠ "" then observations.filter (fun r => r.indicator_code = some c)
            else observations
          | none => observations
        sortLe (fun a b => dateLe a.observation_date b.observation_date) filtered

/-- `save_enriched_data`, with file output treated as an external
collaborator that succeeds: the one precondition error is raised when
no table has been loaded, and nothing else raises. -/
def save_enriched_data (L : Loader) : Except String Unit :=
  match L.data with
  | none => Except.error "No data to save"
  | some _ => Except.ok ()

/-! ## Mutation operations (`add_observation`, `add_event`,
`add_impact_link`).  `datetime.now()` is the explicit `now` argument;
the operations act on the loaded table. -/

/-- A wall-clock instant, to second resolution. -/
structure Timestamp where
  year : Nat
  month : Nat
  day : Nat
  hour : Nat
  minute : Nat
  second : Nat
  deriving Repr, DecidableEq

/-- Two-digit zero-padded decimal. -/
def pad2 (n : Nat) : String :=
  if n < 10 then "0" ++ toString n else toString n

/-- Four-digit zero-padded decimal. -/
def pad4 (n : Nat) : String :=
  if n < 10 then "000" ++ toString n
  else if n < 100 then "00" ++ toString n
  else if n < 1000 then "0" ++ toString n
  else toString n

/-- `strftime` with format `%Y%m%d_%H%M%S`: the second-resolution
timestamp used in generated record ids. -/
def fmtCompact (ts : Timestamp) : String :=
  pad4 ts.year ++ pad2 ts.month ++ pad2 ts.day ++ "_" ++
    pad2 ts.hour ++ pad2 ts.minute ++ pad2 ts.second

/-- `strftime` with format `%Y-%m-%d`: the default collection date. -/
def fmtDate (ts : Timestamp) : String :=
  pad4 ts.year ++ "-" ++ pad2 ts.month ++ "-" ++ pad2 ts.day

/-- Union of column lists, as `pd.concat` unions the frames' columns
(existing order kept, new columns appended). -/
def unionCols (cols newCols : List String) : List String :=
  cols ++ newCols.filter (fun c => c ∉ cols)

/-- The columns of the single-row frame built by `add_observation`. -/
def obsCols : List String :=
  ["record_id", "record_type", "pillar", "indicator", "indicator_code",
   "value_numeric", "observation_date", "source_name", "source_url",
   "confidence", "notes", "collected_by", "collection_date"]

/-- The columns of the single-row frame built by `add_event`. -/
def evtCols : List String :=
  ["record_id", "record_type", "pillar", "indicator", "indicator_code",
   "event_name", "event_date", "event_category", "description",
   "source_name", "source_url", "confidence", "notes", "collected_by",
   "collection_date"]

/-- The columns of the single-row frame built by `add_impact_link`. -/
def impCols : List String :=
  ["record_id", "record_type", "pillar", "indicator", "indicator_code",
   "parent_id", "related_indicator", "impact_direction",
   "impact_magnitude", "lag_months", "evidence_basis", "notes",
   "collected_by", "collection_date"]

/-- The single record `add_observation` builds. -/
def mkObservation (now : Timestamp) (pillar indicator indicator_code : String)
    (value_numeric : ℚ) (observation_date source_name source_url : String)
    (confidence : String) (notes : String) (collected_by : String)
    (collection_date : Option String) : Record :=
  { record_id := some ("obs_" ++ fmtCompact now)
    record_type := some "observation"
    pillar := some pillar
    indicator := some indicator
    indicator_code := some indicator_code
    value_numeric := some value_numeric
    observation_date := some observation_date
    source_name := some source_name
    source_url := some source_url
    confidence := some confidence
    notes := some notes
    collected_by := some collected_by
    collection_date := some (collection_date.getD (fmtDate now)) }

/-- `add_observation`: build the record, generate
`obs_<timestamp>` as its id, append, return the id. -/
def add_observation (t : Table) (now : Timestamp)
    (pillar indicator indicator_code : String) (value_numeric : ℚ)
    (observation_date source_name source_url : String)
    (confidence : String := "medium") (notes : String := "")
    (collected_by : String := "system") (collection_date : Option String := none) :
    Table × String :=
  let r := mkObservation now pillar indicator indicator_code value_numeric
    observation_date source_name source_url confidence notes collected_by collection_date
  ({ cols := unionCols t.cols obsCols, rows := t.rows ++ [r] }, "obs_" ++ fmtCompact now)

/-- The single record `add_event` builds: `record_type` is `event`,
`pillar` is left empty, `indicator_code` is synthesized as
`EVENT_` followed by the category uppercased, and the description is
copied into `notes`. -/
def mkEvent (now : Timestamp) (event_name event_date category : String)
    (description source_name source_url confidence collected_by : String)
    (collection_date : Option String) : Record :=
  { record_id := some ("evt_" ++ fmtCompact now)
    record_type := some "event"
    pillar := some ""
    indicator := some event_name
    indicator_code := some ("EVENT_" ++ pyUpper category)
    event_name := some event_name
    event_date := some event_date
    event_category := some category
    description := some description
    source_name := some source_name
    source_url := some source_url
    confidence := some confidence
    notes := some description
    collected_by := some collected_by
    collection_date := some (collection_date.getD (fmtDate now)) }

/-- `add_event`: build the record, generate `evt_<timestamp>` as its
id, append, return the id. -/
def add_event (t : Table) (now : Timestamp) (event_name event_date category : String)
    (description : String := "") (source_name : String := "")
    (source_url : String := "") (confidence : String := "medium")
    (collected_by : String := "system") (collection_date : Option String := none) :
    Table × String :=
  let r := mkEvent now event_name event_date category description source_name
    source_url confidence collected_by collection_date
  ({ cols := unionCols t.cols evtCols, rows := t.rows ++ [r] }, "evt_" ++ fmtCompact now)

/-- The single record `add_impact_link` builds. -/
def mkImpactLink (now : Timestamp) (parent_id pillar related_indicator impact_direction : String)
    (impact_magnitude : ℚ) (lag_months : ℤ) (evidence_basis collected_by : String)
    (collection_date : Option String) : Record :=
  { record_id := some ("imp_" ++ fmtCompact now)
    record_type := some "impact_link"
    pillar := some pillar
    indicator := some "Impact Link"
    indicator_code := some "IMPACT_LINK"
    parent_id := some parent_id
    related_indicator := some related_indicator
    impact_direction := some impact_direction
    impact_magnitude := some impact_magnitude
    lag_months := some lag_months
    evidence_basis := some evidence_basis
    notes := some ("Impact of " ++ parent_id ++ " on " ++ related_indicator)
    collected_by := some collected_by
    collection_date := some (collection_date.getD (fmtDate now)) }

/-- `add_impact_link`: build the record, generate `imp_<timestamp>` as
its id, append, return the id. -/
def add_impact_link (t : Table) (now : Timestamp)
    (parent_id pillar related_indicator impact_direction : String)
    (impact_magnitude : ℚ) (lag_months : ℤ := 0) (evidence_basis : String := "")
    (collected_by : String := "system") (collection_date : Option String := none) :
    Table × String :=
  let r := mkImpactLink now parent_id pillar related_indicator impact_direction
    impact_magnitude lag_months evidence_basis collected_by collection_date
  ({ cols := unionCols t.cols impCols, rows := t.rows ++ [r] }, "imp_" ++ fmtCompact now)

/-! ## Trend series (specified view) -/

/-- The growth statistics reported by the trend-series view. -/
structure TrendStats where
  growth : List ℚ
  mean_growth : Option ℚ
  last_growth : Option ℚ
  deriving Repr, DecidableEq

/-- Period-over-period first differences of a value series. -/
def diffs : List ℚ → List ℚ
  | [] => []
  | [_] => []
  | a :: b :: rest => (b - a) :: diffs (b :: rest)

/-- Modelled from the spec: the date-sorted `value_numeric` series of
the observations of one indicator code, the first half of
`trend_series`. -/
def seriesVals (L : Loader) (indicator_code : String) : List ℚ :=
  match L.data with
  | none => []
  | some t =>
    (sortLe (fun a b => dateLe a.observation_date b.observation_date)
      ((t.rows.filter (fun r => r.record_type = some "observation")).filter
        (fun r => r.indicator_code = some indicator_code))).filterMap
      (fun r => r.value_numeric)

/-- Modelled from the spec: the growth statistics derived from a value
series, the second half of `trend_series`. -/
def trendOf (vals : List ℚ) : TrendStats :=
  let g := diffs vals
  { growth := g
    mean_growth := if g = [] then none else some (g.sum / (g.length : ℚ))
    last_growth := g.getLast? }

/-- Modelled from the spec: `trend_series(indicator_code)` belongs to
the Derived View Engine of the specification but has no definition in
the source tree; per the spec it restricts to observations of the
given code sorted by date, derives the period-over-period first
difference of `value_numeric` as the growth column, and reports the
mean of all differences and the most recent single difference, both
absent when the series has fewer than two points. -/
def trend_series (L : Loader) (indicator_code : String) : TrendStats :=
  trendOf (seriesVals L indicator_code)

/-! ## Auxiliary definitions for the stated properties -/

/-- The row-level flag the specification sentence claims for the
categorical check: flagged iff the value is non-empty and outside the
accepted set.  To be compared with `codeFlag`, the flag the source
computes. -/
def claimedFlag (valid : List String) (v : Option String) : Bool :=
  match v with
  | none => false
  | some s => decide (s ≠ "") && decide (s ∉ valid)

/-- The `_validate_categorical_fields` call as a state transition on
the loader: it fills `valid_codes_cache` and reports findings; the
method never assigns `self.data`. -/
def runCategoricalValidation (L : Loader) : Loader :=
  match L.data, L.reference_codes with
  | some t, some ref =>
    { L with
      valid_codes_cache := validateCaches t ref
      findings := L.findings ++ validateCategoricalFields t ref }
  | _, _ => L

/-! ## Concrete fixtures -/

/-- A fixed instant used by the concrete scenarios. -/
def ts0 : Timestamp := { year := 2024, month := 6, day := 1, hour := 12, minute := 30, second := 45 }

/-- An observation row used by the concrete scenarios. -/
def obsRow (id code : String) (v : ℚ) (d src conf : String) : Record :=
  { record_id := some id
    record_type := some "observation"
    pillar := some "access"
    indicator := some "Account ownership"
    indicator_code := some code
    value_numeric := some v
    observation_date := some d
    source_name := some src
    confidence := some conf }

/-- A table holding two observations of one indicator, with values
10.0 then 17.0 in date order. -/
def twoPointTable : Table :=
  { cols := obsCols
    rows := [obsRow "r2" "ACC_OWN" 17 "2021-06-30" "WB" "high",
             obsRow "r1" "ACC_OWN" 10 "2017-03-01" "WB" "high"] }

/-- A loader holding the two-point series. -/
def twoPointLoader : Loader := { data := some twoPointTable }

/-- A table holding a single observation of one indicator. -/
def onePointTable : Table :=
  { cols := obsCols
    rows := [obsRow "r1" "ACC_OWN" 10 "2017-03-01" "WB" "high"] }

/-- A loader holding the single-point series. -/
def onePointLoader : Loader := { data := some onePointTable }

/-- A table whose single row carries the empty string in its `pillar`
column. -/
def emptyPillarTable : Table :=
  { cols := ["pillar"], rows := [{ pillar := some "" }] }

/-- A reference catalog accepting only `access` for `pillar`. -/
def pillarRef : RefTable := [("pillar", "access")]

/-- A table with one observation whose code is `ACC_OWN`, used to
exercise the empty-string indicator filter. -/
def preTable : Table :=
  { cols := obsCols
    rows := [obsRow "r1" "ACC_OWN" 5 "2019-01-01" "WB" "high"] }

/-- Three observations of one indicator dated 2017, 2021 and 2024 (out
of row order, so the view must aggregate, not copy). -/
def threeYearTable : Table :=
  { cols := obsCols
    rows := [obsRow "r2" "ACC_OWN" 35 "2021-06-30" "WB" "high",
             obsRow "r1" "ACC_OWN" 22 "2017-03-01" "WB" "high",
             obsRow "r3" "ACC_OWN" 49 "2024-05-02" "WB" "medium"] }

/-- A loader holding the three-year table. -/
def threeYearLoader : Loader := { data := some threeYearTable }

/-- A table that has rows but no `observation_date` column. -/
def noDateColTable : Table :=
  { cols := ["record_id", "record_type", "indicator", "indicator_code"]
    rows := [{ record_id := some "r1", record_type := some "observation",
               indicator_code := some "ACC_OWN" }] }

/-- A loader holding the table without a date column. -/
def noDateColLoader : Loader := { data := some noDateColTable }

/-- The coverage row expected for the three-year table. -/
def threeYearRow : CoverageRow :=
  { indicator_code := "ACC_OWN"
    first_date := some "2017-03-01"
    last_date := some "2024-05-02"
    count := 3
    sources := [some "WB"]
    confidence := some "high" }

/-! ## Helper lemmas -/

theorem length_insertLe {α : Type} (le : α → α → Bool) (x : α) (l : List α) :
    (insertLe le x l).length = l.length + 1 := by
  induction l with
  | nil => rfl
  | cons y ys ih =>
    simp only [insertLe]
    split <;> simp [ih]

theorem length_sortLe {α : Type} (le : α → α → Bool) (l : List α) :
    (sortLe le l).length = l.length := by
  induction l with
  | nil => rfl
  | cons x xs ih => simp [sortLe, length_insertLe, ih]

theorem mem_insertLe {α : Type} (le : α → α → Bool) (x a : α) (l : List α) :
    a ∈ insertLe le x l ↔ a = x ∨ a ∈ l := by
  induction l with
  | nil => simp [insertLe]
  | cons y ys ih =>
    simp only [insertLe]
    split
    · simp [List.mem_cons]
    · simp only [List.mem_cons, ih]
      tauto

theorem mem_sortLe {α : Type} (le : α → α → Bool) (a : α) (l : List α) :
    a ∈ sortLe le l ↔ a ∈ l := by
  induction l with
  | nil => simp [sortLe]
  | cons x xs ih => simp [sortLe, mem_insertLe, ih]

theorem mem_firstSeenAux {α : Type} [DecidableEq α] (l : List α) (seen : List α) (a : α) :
    a ∈ firstSeenAux seen l ↔ a ∈ l ∧ a ∉ seen := by
  induction l generalizing seen with
  | nil => simp [firstSeenAux]
  | cons x xs ih =>
    simp only [firstSeenAux]
    split
    · rename_i hx
      rw [ih]
      simp only [List.mem_cons]
      constructor
      · rintro ⟨h1, h2⟩
        exact ⟨Or.inr h1, h2⟩
      · rintro ⟨h1 | h1, h2⟩
        · exact absurd (h1 ▸ hx) h2
        · exact ⟨h1, h2⟩
    · rename_i hx
      simp only [List.mem_cons, ih, List.mem_cons]
      by_cases hax : a = x
      · subst hax
        simp [hx]
      · simp [hax]

theorem mem_firstSeen {α : Type} [DecidableEq α] (l : List α) (a : α) :
    a ∈ firstSeen l ↔ a ∈ l := by
  simp [firstSeen, mem_firstSeenAux]

theorem nodup_firstSeenAux {α : Type} [DecidableEq α] (l : List α) (seen : List α) :
    (firstSeenAux seen l).Nodup := by
  induction l generalizing seen with
  | nil => simp [firstSeenAux]
  | cons x xs ih =>
    simp only [firstSeenAux]
    split
    · exact ih _
    · refine List.nodup_cons.mpr ⟨?_, ih _⟩
      intro hmem
      rw [mem_firstSeenAux] at hmem
      exact hmem.2 (List.mem_cons_self x seen)

theorem nodup_firstSeen {α : Type} [DecidableEq α] (l : List α) :
    (firstSeen l).Nodup :=
  nodup_firstSeenAux l []

theorem length_invalidCells (valid : List String) (cells : List (Option String)) :
    (invalidCells valid cells).length = (cells.filter (codeFlag valid)).length := by
  induction cells with
  | nil => rfl
  | cons c cs ih =>
    cases c with
    | none =>
      simpa [invalidCells, codeFlag, List.filterMap_cons, List.filter_cons] using ih
    | some s =>
      by_cases hs : s ∈ valid <;>
        simpa [invalidCells, codeFlag, List.filterMap_cons, List.filter_cons, hs] using ih

theorem countOcc_filterMap_id (s : String) (l : List (Option String)) :
    countOcc s (l.filterMap id) = (l.filter (fun v => v = some s)).length := by
  induction l with
  | nil => rfl
  | cons c cs ih =>
    cases c with
    | none => simpa [List.filterMap_cons, List.filter_cons] using ih
    | some x =>
      by_cases hx : x = s
      · subst hx
        simpa [countOcc, List.filterMap_cons, List.filter_cons] using ih
      · simpa [countOcc, List.filterMap_cons, List.filter_cons, hx] using ih

theorem diffs_eq_nil_of_short (l : List ℚ) (h : l.length < 2) : diffs l = [] := by
  cases l with
  | nil => rfl
  | cons a t =>
    cases t with
    | nil => rfl
    | cons b t2 => simp at h; omega

theorem fieldFinding_field (t : Table) (ref : RefTable) (f : String) (fd : Finding)
    (h : fieldFinding t ref f = some fd) : fd.field = f := by
  simp only [fieldFinding] at h
  split at h
  · split at h
    · split at h
      · injection h with h2
        subst h2
        rfl
      · exact absurd h (by simp)
    · exact absurd h (by simp)
  · exact absurd h (by simp)

/-! ## Claims -/

/-- C3: `save_enriched_data` raises an error to the caller exactly when
no table has been loaded; in every other state, including an empty
table, it completes without raising, and the error is surfaced (an
`Except.error`), never swallowed. -/
theorem save_requires_loaded_data (L : Loader) :
    (save_enriched_data L = Except.error "No data to save" ↔ L.data = none) ∧
    (∀ t : Table, L.data = some t → save_enriched_data L = Except.ok ()) ∧
    save_enriched_data { data := some emptyTable } = Except.ok () := by
  refine ⟨?_, ?_, rfl⟩
  · cases h : L.data <;> simp [save_enriched_data, h]
  · intro t ht
    simp [save_enriched_data, ht]

/-- Witness for C3 at a concrete loader holding an empty table. -/
theorem save_requires_loaded_data_witness :
    save_enriched_data { data := some emptyTable } = Except.ok () :=
  (save_requires_loaded_data { data := some emptyTable }).2.1 emptyTable rfl

/-- C6: for every category string, `add_event` produces a record whose
`indicator_code` is `EVENT_` followed by the category uppercased (in
particular `EVENT_POLICY` for category `policy`), whose `record_type`
is `event`, and whose `pillar` is empty. -/
theorem add_event_synthesized_code (t : Table) (now : Timestamp)
    (event_name event_date category description source_name source_url
      confidence collected_by : String) (collection_date : Option String) :
    (let r := mkEvent now event_name event_date category description
      source_name source_url confidence collected_by collection_date
     (add_event t now event_name event_date category description source_name
        source_url confidence collected_by collection_date).1.rows = t.rows ++ [r] ∧
      r.indicator_code = some ("EVENT_" ++ pyUpper category) ∧
      r.record_type = some "event" ∧
      r.pillar = some "") ∧
    pyUpper "policy" = "POLICY" ∧
    (mkEvent ts0 "launch" "2024-01-01" "policy" "" "" "" "medium" "system"
        none).indicator_code = some "EVENT_POLICY" := by
  exact ⟨⟨rfl, rfl, rfl, rfl⟩, by decide, by decide⟩

/-- C9: each of `add_observation`, `add_event` and `add_impact_link`
appends exactly one row at the end of the table, leaves every
pre-existing row unchanged, generates a `record_id` of the form
kind-tag (`obs`, `evt`, `imp`) followed by an underscore and the
second-resolution timestamp, and returns that id. -/
theorem mutations_append_one_row (t : Table) (now : Timestamp)
    (pillar indicator indicator_code : String) (value_numeric : ℚ)
    (observation_date source_name source_url confidence notes collected_by : String)
    (collection_date : Option String)
    (event_name event_date category description : String)
    (parent_id related_indicator impact_direction : String)
    (impact_magnitude : ℚ) (lag_months : ℤ) (evidence_basis : String) :
    (let p := add_observation t now pillar indicator indicator_code value_numeric
        observation_date source_name source_url confidence notes collected_by collection_date
     p.1.rows = t.rows ++ [mkObservation now pillar indicator indicator_code value_numeric
        observation_date source_name source_url confidence notes collected_by collection_date] ∧
      p.1.rows.take t.rows.length = t.rows ∧
      p.2 = "obs_" ++ fmtCompact now ∧
      (mkObservation now pillar indicator indicator_code value_numeric observation_date
        source_name source_url confidence notes collected_by collection_date).record_id = some p.2) ∧
    (let p := add_event t now event_name event_date category description source_name
        source_url confidence collected_by collection_date
     p.1.rows = t.rows ++ [mkEvent now event_name event_date category description
        source_name source_url confidence collected_by collection_date] ∧
      p.1.rows.take t.rows.length = t.rows ∧
      p.2 = "evt_" ++ fmtCompact now ∧
      (mkEvent now event_name event_date category description source_name source_url
        confidence collected_by collection_date).record_id = some p.2) ∧
    (let p := add_impact_link t now parent_id pillar related_indicator impact_direction
        impact_magnitude lag_months evidence_basis collected_by collection_date
     p.1.rows = t.rows ++ [mkImpactLink now parent_id pillar related_indicator
        impact_direction impact_magnitude lag_months evidence_basis collected_by collection_date] ∧
      p.1.rows.take t.rows.length = t.rows ∧
      p.2 = "imp_" ++ fmtCompact now ∧
      (mkImpactLink now parent_id pillar related_indicator impact_direction impact_magnitude
        lag_months evidence_basis collected_by collection_date).record_id = some p.2) := by
  refine ⟨⟨rfl, ?_, rfl, rfl⟩, ⟨rfl, ?_, rfl, rfl⟩, ⟨rfl, ?_, rfl, rfl⟩⟩ <;>
    simp [add_observation, add_event, add_impact_link, List.take_left]

/-- C10: passing the empty string as `indicator_code` behaves exactly
like passing no argument — the truthiness test treats it as "no
filter", so all observation records come back, not the empty set of
records whose code equals the empty string. -/
theorem observations_empty_code_no_filter (L : Loader) (t : Table) (r : Record) :
    get_observations_by_indicator L (some "") = get_observations_by_indicator L none ∧
    (r ∈ get_observations_by_indicator { data := some t } (some "") ↔
      r ∈ t.rows ∧ r.record_type = some "observation") := by
  constructor
  · cases h : L.data with
    | none => simp [get_observations_by_indicator, h]
    | some t2 => simp [get_observations_by_indicator, h]
  · show r ∈ get_observations_by_indicator { data := some t } (some "") ↔ _
    simp only [get_observations_by_indicator]
    by_cases h1 : t.rows = []
    · simp [h1]
    · simp only [h1, if_false]
      by_cases h2 : t.rows.filter (fun x => x.record_type = some "observation") = []
      · simp only [h2, if_true, List.not_mem_nil, false_iff]
        rintro ⟨hr, hty⟩
        have : r ∈ t.rows.filter (fun x => x.record_type = some "observation") := by
          simp [List.mem_filter, hr, hty]
        rw [h2] at this
        exact absurd this (List.not_mem_nil r)
      · simp only [h2, if_false, if_neg (by simp : ¬("" : String) ≠ "")]
        rw [mem_sortLe]
        simp [List.mem_filter]

/-- C8: when the input table file or the reference-codes file is
absent, `load_all_data` reports the problem and proceeds with an empty
table instead of halting, and every derived-view operation on the
resulting store remains callable and returns an empty result rather
than raising. -/
theorem load_missing_files_degrades (ref : Option RefTable) (d : Option Table)
    (code : Option String) (ind : String) :
    (load_all_data none ref).data = some emptyTable ∧
    "Main data file not found" ∈ (load_all_data none ref).load_errors ∧
    (load_all_data d none).reference_codes = some ([] : List (String × String)) ∧
    "Reference codes file not found" ∈ (load_all_data d none).load_errors ∧
    get_record_type_stats (load_all_data none ref) = none ∧
    get_temporal_coverage (load_all_data none ref) = [] ∧
    get_events_timeline (load_all_data none ref) = [] ∧
    get_observations_by_indicator (load_all_data none ref) code = [] ∧
    trend_series (load_all_data none ref) ind =
      { growth := [], mean_growth := none, last_growth := none } := by
  have hload : (load_all_data none ref).data = some emptyTable := by
    simp [load_all_data, emptyTable]
  refine ⟨hload, ?_, ?_, ?_, ?_, ?_, ?_, ?_, ?_⟩
  · simp [load_all_data, emptyTable]
  · cases d with
    | none => simp [load_all_data, emptyTable]
    | some t =>
      by_cases h : t.rows = [] <;> simp [load_all_data, Option.getD, h]
  · cases d with
    | none => simp [load_all_data, emptyTable]
    | some t =>
      by_cases h : t.rows = [] <;> simp [load_all_data, Option.getD, h]
  · simp [get_record_type_stats, hload, emptyTable]
  · simp [get_temporal_coverage, hload, emptyTable]
  · simp [get_events_timeline, hload, emptyTable]
  · simp [get_observations_by_indicator, hload, emptyTable]
  · simp [trend_series, seriesVals, hload, emptyTable, trendOf, sortLe, diffs]

/-- C4: for every loaded table, `get_record_type_stats` reports
`total_records` equal to the number of rows together with a count of
records per `record_type`; on an empty store it returns an empty
result rather than raising. -/
theorem record_type_stats_totals (t : Table) (h : t.rows ≠ []) :
    (∃ s, get_record_type_stats { data := some t } = some s ∧
      s.total_records = t.rows.length ∧
      ∀ ty : String, some ty ∈ t.rows.map (fun r => r.record_type) →
        (ty, (t.rows.filter (fun r => r.record_type = some ty)).length) ∈ s.counts) ∧
    get_record_type_stats { data := some emptyTable } = none ∧
    get_record_type_stats ({} : Loader) = none := by
  refine ⟨?_, rfl, rfl⟩
  refine ⟨{ counts := valueCounts (t.rows.map (fun r => r.record_type))
            total_records := t.rows.length }, ?_, rfl, ?_⟩
  · simp [get_record_type_stats, h]
  · intro ty hty
    have hvals : ty ∈ (t.rows.map (fun r => r.record_type)).filterMap id := by
      rw [List.mem_filterMap]
      exact ⟨some ty, hty, rfl⟩
    have hcnt : countOcc ty ((t.rows.map (fun r => r.record_type)).filterMap id) =
        (t.rows.filter (fun r => r.record_type = some ty)).length := by
      rw [countOcc_filterMap_id, List.filter_map]
      simp only [List.length_map]
      rfl
    simp only [valueCounts, mem_sortLe, List.mem_map]
    exact ⟨ty, (mem_firstSeen _ _).mpr hvals, by rw [hcnt]⟩

/-- Witness for C4 at a concrete three-row table. -/
theorem record_type_stats_totals_witness :
    (∃ s, get_record_type_stats { data := some threeYearTable } = some s ∧
      s.total_records = threeYearTable.rows.length ∧
      ∀ ty : String, some ty ∈ threeYearTable.rows.map (fun r => r.record_type) →
        (ty, (threeYearTable.rows.filter (fun r => r.record_type = some ty)).length) ∈ s.counts) ∧
    get_record_type_stats { data := some emptyTable } = none ∧
    get_record_type_stats ({} : Loader) = none :=
  record_type_stats_totals threeYearTable (by decide)

/-- C5 counterexample: a store whose only observation has code
`ACC_OWN` (so it contains no observation with code `""`); adding an
observation with indicator code `""` and then querying that code
returns two rows, not exactly one — the empty string disables the
filter, so all observations come back. -/
theorem add_then_query_empty_code_not_single :
    (preTable.rows.filter (fun r =>
        decide (r.record_type = some "observation") &&
        decide (r.indicator_code = some ""))).length = 0 ∧
    (get_observations_by_indicator
        { data := some (add_observation preTable ts0 "access" "Mobile money accounts" "" 1
            "2020-01-01" "WB" "url").1 }
        (some "")).length = 2 ∧
    (get_observations_by_indicator
        { data := some (add_observation preTable ts0 "access" "Mobile money accounts" "" 1
            "2020-01-01" "WB" "url").1 }
        (some "")).length ≠ 1 := by
  decide

/-- C5 (amended): for every store containing no observation with a
given non-empty indicator code, `add_observation` with that code
followed by `get_observations_by_indicator` with the same code returns
exactly the one new row, whose `value_numeric` and `observation_date`
equal the inputs.  (Restricting to non-empty codes is forced by the
counterexample: the empty string is falsy and disables the filter.) -/
theorem add_observation_then_query (t : Table) (now : Timestamp)
    (pillar indicator code : String) (vn : ℚ)
    (od sn su conf nts cb : String) (cd : Option String)
    (hcode : code ≠ "")
    (hfresh : ∀ r ∈ t.rows, r.record_type = some "observation" →
      r.indicator_code ≠ some code) :
    get_observations_by_indicator
        { data := some (add_observation t now pillar indicator code vn od sn su
            conf nts cb cd).1 }
        (some code)
      = [mkObservation now pillar indicator code vn od sn su conf nts cb cd] ∧
    (mkObservation now pillar indicator code vn od sn su conf nts cb cd).value_numeric
      = some vn ∧
    (mkObservation now pillar indicator code vn od sn su conf nts cb cd).observation_date
      = some od := by
  refine ⟨?_, rfl, rfl⟩
  have hrows : (add_observation t now pillar indicator code vn od sn su conf nts cb cd).1.rows
      = t.rows ++ [mkObservation now pillar indicator code vn od sn su conf nts cb cd] := rfl
  have hobs : (t.rows ++ [mkObservation now pillar indicator code vn od sn su conf nts cb cd]).filter
        (fun x => x.record_type = some "observation")
      = t.rows.filter (fun x => x.record_type = some "observation")
        ++ [mkObservation now pillar indicator code vn od sn su conf nts cb cd] := by
    rw [List.filter_append]
    rfl
  have hold : (t.rows.filter (fun x => x.record_type = some "observation")).filter
      (fun x => x.indicator_code = some code) = [] := by
    rw [List.filter_eq_nil_iff]
    intro a ha
    rw [List.mem_filter] at ha
    have hty : a.record_type = some "observation" := by
      have := ha.2
      simpa using this
    simpa using hfresh a ha.1 hty
  simp only [get_observations_by_indicator, hrows]
  rw [if_neg (by simp), hobs, if_neg (by simp), if_pos hcode, List.filter_append, hold]
  simp [mkObservation, sortLe, insertLe]

/-- Witness for C5 (amended) at a fresh empty store. -/
theorem add_observation_then_query_witness :
    get_observations_by_indicator
        { data := some (add_observation emptyTable ts0 "access" "Account ownership" "ACC_OWN"
            1 "2020-01-01" "WB" "url" "medium" "" "system" none).1 }
        (some "ACC_OWN")
      = [mkObservation ts0 "access" "Account ownership" "ACC_OWN" 1 "2020-01-01" "WB" "url"
          "medium" "" "system" none] ∧
    (mkObservation ts0 "access" "Account ownership" "ACC_OWN" 1 "2020-01-01" "WB" "url"
        "medium" "" "system" none).value_numeric = some 1 ∧
    (mkObservation ts0 "access" "Account ownership" "ACC_OWN" 1 "2020-01-01" "WB" "url"
        "medium" "" "system" none).observation_date = some "2020-01-01" :=
  add_observation_then_query emptyTable ts0 "access" "Account ownership" "ACC_OWN"
    1 "2020-01-01" "WB" "url" "medium" "" "system" none (by decide)
    (by intro r hr; exact absurd hr (List.not_mem_nil r))

/-- C2 counterexample: the categorical check flags a row whose value
is the empty string.  With accepted set `[access]` for `pillar`, the
row-level mask the code computes flags the cell `""` (it is present,
hence not NaN, and outside the set), and the whole check reports a
finding counting that row — while the claimed rule says a row with an
empty categorical value is never flagged. -/
theorem categorical_check_flags_empty_string :
    codeFlag (acceptedCodes pillarRef "pillar") (some "") = true ∧
    claimedFlag (acceptedCodes pillarRef "pillar") (some "") = false ∧
    validateCategoricalFields emptyPillarTable pillarRef =
      [{ field := "pillar", invalid_count := 1, sample := [""] }] := by
  decide

/-- C2 (amended): during ingestion validation of the categorical
fields, when the catalog is non-empty and lists accepted codes for a
field whose column is present, a row is flagged iff its value for the
field is present (non-missing) and outside the accepted set — the
empty string counts as present, not as empty; the reported count is
the number of flagged rows, at most 5 distinct offending values are
reported, and validation does not mutate the underlying table. -/
theorem categorical_check_amended (t : Table) (ref : RefTable) (f : String) (L : Loader)
    (href : ref ≠ ([] : List (String × String)))
    (hf : f ∈ categoricalFields) (hcol : f ∈ t.cols)
    (hvalid : acceptedCodes ref f ≠ [])
    (hL : L.data = some t) :
    (∀ fd ∈ validateCategoricalFields t ref, fd.field = f →
      fd.invalid_count = ((t.rows.map (fun r => getCat r f)).filter
        (codeFlag (acceptedCodes ref f))).length ∧
      fd.sample.length ≤ 5 ∧ fd.sample.Nodup) ∧
    ((∃ r ∈ t.rows, codeFlag (acceptedCodes ref f) (getCat r f) = true) →
      ∃ fd ∈ validateCategoricalFields t ref, fd.field = f) ∧
    ((∀ r ∈ t.rows, codeFlag (acceptedCodes ref f) (getCat r f) = false) →
      ∀ fd ∈ validateCategoricalFields t ref, fd.field ≠ f) ∧
    (runCategoricalValidation L).data = some t := by
  have hval : validateCategoricalFields t ref = categoricalFields.filterMap (fieldFinding t ref) := by
    simp [validateCategoricalFields, href]
  have hunfold : fieldFinding t ref f =
      (if (invalidCells (acceptedCodes ref f) (t.rows.map (fun r => getCat r f))).length ≠ 0 then
        some { field := f
               invalid_count := (invalidCells (acceptedCodes ref f)
                 (t.rows.map (fun r => getCat r f))).length
               sample := (firstSeen (invalidCells (acceptedCodes ref f)
                 (t.rows.map (fun r => getCat r f)))).take 5 }
      else none) := by
    unfold fieldFinding
    rw [if_pos hcol, if_pos hvalid]
  refine ⟨?_, ?_, ?_, ?_⟩
  · intro fd hfd hfield
    rw [hval, List.mem_filterMap] at hfd
    obtain ⟨g, hg, heq⟩ := hfd
    have hgf : fd.field = g := fieldFinding_field t ref g fd heq
    rw [hfield] at hgf
    rw [← hgf] at heq
    rw [hunfold] at heq
    split at heq
    · injection heq with h2
      subst h2
      refine ⟨(length_invalidCells _ _).symm ▸ rfl, List.length_take_le _ _, ?_⟩
      exact (nodup_firstSeen _).sublist (List.take_sublist _ _)
    · exact absurd heq (by simp)
  · rintro ⟨r, hr, hflag⟩
    have hmem : getCat r f ∈ (t.rows.map (fun x => getCat x f)).filter
        (codeFlag (acceptedCodes ref f)) :=
      List.mem_filter.mpr ⟨List.mem_map_of_mem _ hr, hflag⟩
    have hlen : (invalidCells (acceptedCodes ref f) (t.rows.map (fun x => getCat x f))).length ≠ 0 := by
      rw [length_invalidCells]
      have := List.length_pos.mpr (List.ne_nil_of_mem hmem)
      omega
    refine ⟨{ field := f
              invalid_count := (invalidCells (acceptedCodes ref f)
                (t.rows.map (fun x => getCat x f))).length
              sample := (firstSeen (invalidCells (acceptedCodes ref f)
                (t.rows.map (fun x => getCat x f)))).take 5 }, ?_, rfl⟩
    rw [hval, List.mem_filterMap]
    exact ⟨f, hf, by rw [hunfold, if_pos hlen]⟩
  · intro hall fd hfd hfield
    rw [hval, List.mem_filterMap] at hfd
    obtain ⟨g, hg, heq⟩ := hfd
    have hgf : fd.field = g := fieldFinding_field t ref g fd heq
    rw [hfield] at hgf
    rw [← hgf] at heq
    rw [hunfold] at heq
    have hnil : (t.rows.map (fun x => getCat x f)).filter (codeFlag (acceptedCodes ref f)) = [] := by
      rw [List.filter_eq_nil_iff]
      intro a ha
      rw [List.mem_map] at ha
      obtain ⟨r, hr, hra⟩ := ha
      rw [← hra]
      simp [hall r hr]
    rw [if_neg (by rw [length_invalidCells, hnil]; simp)] at heq
    exact absurd heq (by simp)
  · cases hrc : L.reference_codes <;> simp [runCategoricalValidation, hL, hrc]

/-- Witness for C2 (amended) at the empty-pillar fixture. -/
theorem categorical_check_amended_witness :
    (∀ fd ∈ validateCategoricalFields emptyPillarTable pillarRef, fd.field = "pillar" →
      fd.invalid_count = ((emptyPillarTable.rows.map (fun r => getCat r "pillar")).filter
        (codeFlag (acceptedCodes pillarRef "pillar"))).length ∧
      fd.sample.length ≤ 5 ∧ fd.sample.Nodup) ∧
    ((∃ r ∈ emptyPillarTable.rows,
        codeFlag (acceptedCodes pillarRef "pillar") (getCat r "pillar") = true) →
      ∃ fd ∈ validateCategoricalFields emptyPillarTable pillarRef, fd.field = "pillar") ∧
    ((∀ r ∈ emptyPillarTable.rows,
        codeFlag (acceptedCodes pillarRef "pillar") (getCat r "pillar") = false) →
      ∀ fd ∈ validateCategoricalFields emptyPillarTable pillarRef, fd.field ≠ "pillar") ∧
    (runCategoricalValidation
      { data := some emptyPillarTable, reference_codes := some pillarRef }).data
        = some emptyPillarTable :=
  categorical_check_amended emptyPillarTable pillarRef "pillar"
    { data := some emptyPillarTable, reference_codes := some pillarRef }
    (by decide) (by decide) (by decide) (by decide) rfl

/-- C1 (modelled from the spec, the view being absent from the source
tree): `trend_series` restricts to the observations of the given code
sorted by date and takes first differences of `value_numeric`; for
every series with fewer than two observation points both the mean and
the most recent growth are reported as absent (not zero, and the call
does not fail), and on a two-point series with values 10.0 then 17.0
it reports the single growth value 7.0 (mean and last both 7.0). -/
theorem trend_series_growth (L : Loader) (code : String)
    (h : ∀ t, L.data = some t →
      ((t.rows.filter (fun r => r.record_type = some "observation")).filter
        (fun r => r.indicator_code = some code)).length < 2) :
    (trend_series L code).mean_growth = none ∧
    (trend_series L code).last_growth = none ∧
    trend_series twoPointLoader "ACC_OWN" =
      { growth := [7], mean_growth := some 7, last_growth := some 7 } := by
  have hg : diffs (seriesVals L code) = [] := by
    apply diffs_eq_nil_of_short
    cases hd : L.data with
    | none => simp [seriesVals, hd]
    | some t =>
      have h2 := h t hd
      have h3 : (seriesVals L code).length ≤
          ((t.rows.filter (fun r => r.record_type = some "observation")).filter
            (fun r => r.indicator_code = some code)).length := by
        simp only [seriesVals, hd]
        calc (List.filterMap (fun r => r.value_numeric)
                (sortLe (fun a b => dateLe a.observation_date b.observation_date)
                  ((t.rows.filter (fun r => r.record_type = some "observation")).filter
                    (fun r => r.indicator_code = some code)))).length
            ≤ (sortLe (fun a b => dateLe a.observation_date b.observation_date)
                ((t.rows.filter (fun r => r.record_type = some "observation")).filter
                  (fun r => r.indicator_code = some code))).length :=
              List.length_filterMap_le _ _
          _ = _ := length_sortLe _ _
      omega
  refine ⟨?_, ?_, ?_⟩
  · simp [trend_series, trendOf, hg]
  · simp [trend_series, trendOf, hg]
  · have hv : seriesVals twoPointLoader "ACC_OWN" = [10, 17] := by decide
    show trendOf (seriesVals twoPointLoader "ACC_OWN") = _
    rw [hv]
    have hd17 : diffs [(10 : ℚ), 17] = [7] := by norm_num [diffs]
    simp only [trendOf, hd17]
    norm_num [List.getLast?]

/-- Witness for C1 at the one-point and two-point fixtures. -/
theorem trend_series_growth_witness :
    (trend_series onePointLoader "ACC_OWN").mean_growth = none ∧
    (trend_series onePointLoader "ACC_OWN").last_growth = none ∧
    trend_series twoPointLoader "ACC_OWN" =
      { growth := [7], mean_growth := some 7, last_growth := some 7 } :=
  trend_series_growth onePointLoader "ACC_OWN" (by
    intro t ht
    simp only [onePointLoader] at ht
    injection ht with ht2
    subst ht2
    decide)

/-- C7: `get_temporal_coverage` reports rows only for indicator codes
of observation records, reports at most five distinct sources per
group, returns an empty result on an empty store or when the
`observation_date` column is missing, and on an indicator observed in
2017, 2021 and 2024 reports first date 2017, last date 2024 and count
3 (with the modal confidence and the distinct sources). -/
theorem temporal_coverage_reports (L L2 : Loader) (t : Table) (cr : CoverageRow)
    (hd : L.data = some t) (hcol : "observation_date" ∉ t.cols)
    (hcr : cr ∈ get_temporal_coverage L2) :
    get_temporal_coverage L = [] ∧
    cr.sources.length ≤ 5 ∧
    (∃ t2, L2.data = some t2 ∧ ∃ r ∈ t2.rows, r.record_type = some "observation" ∧
      r.indicator_code = some cr.indicator_code) ∧
    get_temporal_coverage ({} : Loader) = [] ∧
    get_temporal_coverage { data := some emptyTable } = [] ∧
    get_temporal_coverage threeYearLoader = [threeYearRow] := by
  have hmain : cr.sources.length ≤ 5 ∧
      ∃ t2, L2.data = some t2 ∧ ∃ r ∈ t2.rows, r.record_type = some "observation" ∧
        r.indicator_code = some cr.indicator_code := by
    cases hd2 : L2.data with
    | none =>
      simp only [get_temporal_coverage, hd2] at hcr
      exact absurd hcr (List.not_mem_nil cr)
    | some t2 =>
      simp only [get_temporal_coverage, hd2] at hcr
      split at hcr
      · exact absurd hcr (List.not_mem_nil cr)
      · split at hcr
        · exact absurd hcr (List.not_mem_nil cr)
        · rw [List.mem_map] at hcr
          obtain ⟨k, hk, hck⟩ := hcr
          rw [mem_sortLe, mem_firstSeen, List.mem_filterMap] at hk
          obtain ⟨r, hr, hrk⟩ := hk
          rw [List.mem_filter] at hr
          constructor
          · rw [← hck]
            exact List.length_take_le _ _
          · refine ⟨t2, rfl, r, hr.1, by simpa using hr.2, ?_⟩
            rw [← hck]
            exact hrk
  refine ⟨?_, hmain.1, hmain.2, rfl, rfl, by decide⟩
  simp only [get_temporal_coverage, hd]
  by_cases h1 : t.rows = []
  · simp [h1]
  · simp [h1, hcol]

/-- Witness for C7 at the three-year fixture and the fixture lacking a
date column. -/
theorem temporal_coverage_reports_witness :
    get_temporal_coverage noDateColLoader = [] ∧
    threeYearRow.sources.length ≤ 5 ∧
    (∃ t2, threeYearLoader.data = some t2 ∧ ∃ r ∈ t2.rows,
      r.record_type = some "observation" ∧
      r.indicator_code = some threeYearRow.indicator_code) ∧
    get_temporal_coverage ({} : Loader) = [] ∧
    get_temporal_coverage { data := some emptyTable } = [] ∧
    get_temporal_coverage threeYearLoader = [threeYearRow] :=
  temporal_coverage_reports noDateColLoader threeYearLoader noDateColTable
    threeYearRow rfl (by decide) (by decide)

end EthiopiaFI
